import Mathlib

/-! Report service (`report-service/main.go`).

A shallow embedding of the two remote procedures of the report service,
`GenerateReport` and `GetTimeSeriesData`, and of the helper `generatePDF`,
together with the properties of them checked against the written
specification.

The backing store is seen only through the answers it gives: the reply to
`KEYS "ts:*"` and the reply to `TS.RANGE key start end`.  A Go `error` is
represented by its message.  Two library functions are parameters of the
development: the RFC 3339 rendering of a Unix time (which depends on the
process time zone) and the `%f` scan of `fmt.Sscanf`.
-/

namespace ReportService

/-! ## Data model -/

/-- The dynamically typed reply of the store client (`interface{}` in the
source): an `int64`, a `string`, a `[]interface{}`, or anything else. -/
inductive RedisValue where
  | int (n : Int)
  | str (s : String)
  | arr (xs : List RedisValue)
  | nil

/-- The store client, as far as the service uses it: the answer to
`Keys(ctx, pattern).Result()` and the answer to
`Do(ctx, "TS.RANGE", key, start, end).Result()`. -/
structure RedisClient where
  Keys : String → Except String (List String)
  Do_TS_RANGE : String → Int → Int → Except String RedisValue

/-- The receiver of the two remote procedures. -/
structure server where
  redisClient : RedisClient

/-- Modelled from the spec: the generated message type `pb.ReportRequest`
(section 6, `GenerateReport(startTimestampMs, endTimestampMs)`). -/
structure ReportRequest where
  StartTimestamp : Int
  EndTimestamp : Int

/-- Modelled from the spec: the generated message type `pb.ReportResponse`
(section 6, `{ pdfBytes, pageCount, generatedAt }`). -/
structure ReportResponse where
  PdfData : ByteArray
  PageCount : Int
  GeneratedAt : String

/-- Modelled from the spec: the generated message type `pb.TimeSeriesRequest`
(section 6, `GetTimeSeriesData(key, startTimestampMs, endTimestampMs)`). -/
structure TimeSeriesRequest where
  Key : String
  StartTimestamp : Int
  EndTimestamp : Int

/-- Modelled from the spec: the generated message type `pb.DataPoint`
(section 6, `{timestamp: int64, value: float64}`). -/
structure DataPoint where
  Timestamp : Int
  Value : Float

/-- Modelled from the spec: the generated message type `pb.TimeSeriesResponse`
(section 6, `{ key, dataPoints }`). -/
structure TimeSeriesResponse where
  Key : String
  DataPoints : List DataPoint

/-! ## The operations -/

/-- The block `fmt.Sprintf("Key: %s\nData Points: %d\n\n", key, count)`. -/
def keyBlock (key : String) (count : Nat) : String :=
  "Key: " ++ key ++ "\nData Points: " ++ toString count ++ "\n\n"

/-- The text before the loop of `generatePDF`: title, period and total. -/
def pdfHeader (formatRFC3339 : Int → String) (nkeys : Nat) (startTs endTs : Int) : String :=
  ("Event Analytics Report\n\nPeriod: " ++ formatRFC3339 (Int.tdiv startTs 1000) ++ " to "
      ++ formatRFC3339 (Int.tdiv endTs 1000) ++ "\n\n")
    ++ ("Total Time Series Keys: " ++ toString nkeys ++ "\n\n")

/-- The string `pdfContent` built by `generatePDF`: the header, then one pass
over `keys` in the order given, where a key whose range query fails is skipped
(`continue`) and any other key appends its block. -/
def pdfContent (formatRFC3339 : Int → String) (rdb : RedisClient) (keys : List String)
    (startTs endTs : Int) : String :=
  keys.foldl
    (fun pdfContent key =>
      match rdb.Do_TS_RANGE key startTs endTs with
      | .error _ => pdfContent
      | .ok result =>
        let count : Nat :=
          match result with
          | .arr resultSlice => resultSlice.length
          | _ => 0
        pdfContent ++ keyBlock key count)
    (pdfHeader formatRFC3339 keys.length startTs endTs)

/-- `generatePDF`: the bytes of `pdfContent`, with a nil error on every path. -/
def generatePDF (formatRFC3339 : Int → String) (rdb : RedisClient) (keys : List String)
    (startTs endTs : Int) : Except String ByteArray :=
  .ok (pdfContent formatRFC3339 rdb keys startTs endTs).toUTF8

/-- `GenerateReport`.  `now` is the Unix time read by `time.Now()`. -/
def GenerateReport (formatRFC3339 : Int → String) (now : Int) (s : server)
    (req : ReportRequest) : Except String ReportResponse :=
  match s.redisClient.Keys "ts:*" with
  | .error err => .error ("failed to get time series keys: " ++ err)
  | .ok keys =>
    match generatePDF formatRFC3339 s.redisClient keys req.StartTimestamp req.EndTimestamp with
    | .error err => .error ("failed to generate PDF: " ++ err)
    | .ok pdfData =>
      .ok { PdfData := pdfData, PageCount := 1, GeneratedAt := formatRFC3339 now }

/-- `GetTimeSeriesData`.  `sscanf` is `fmt.Sscanf(·, "%f", &value)`: `some v`
when the scan stores `v`, `none` when it fails and leaves `value` untouched. -/
def GetTimeSeriesData (sscanf : String → Option Float) (s : server)
    (req : TimeSeriesRequest) : Except String TimeSeriesResponse :=
  match s.redisClient.Do_TS_RANGE req.Key req.StartTimestamp req.EndTimestamp with
  | .error err => .error ("failed to query time series: " ++ err)
  | .ok result =>
    let dataPoints : List DataPoint :=
      match result with
      | .arr resultSlice =>
        resultSlice.foldl
          (fun dataPoints item =>
            match item with
            | .arr [p0, p1] =>
              let timestamp : Int :=
                match p0 with
                | .int n => n
                | _ => 0
              let value : Float :=
                match p1 with
                | .str strVal =>
                  match sscanf strVal with
                  | some v => v
                  | none => 0.0
                | _ => 0.0
              dataPoints ++ [{ Timestamp := timestamp, Value := value }]
            | _ => dataPoints)
          []
      | _ => []
    .ok { Key := req.Key, DataPoints := dataPoints }

/-! ## Derived notions used to state the properties -/

/-- Whether the range query of `key` over the window succeeds. -/
def rangeOk (rdb : RedisClient) (startTs endTs : Int) (key : String) : Bool :=
  match rdb.Do_TS_RANGE key startTs endTs with
  | .ok _ => true
  | .error _ => false

/-- The count printed for `key`: the length of the raw reply when it is a list,
and 0 otherwise. -/
def rangeCount (rdb : RedisClient) (startTs endTs : Int) (key : String) : Nat :=
  match rdb.Do_TS_RANGE key startTs endTs with
  | .ok (.arr resultSlice) => resultSlice.length
  | _ => 0

/-- The per-key rows `(key, count)` that the loop of `generatePDF` emits, in the
order it emits them. -/
def reportRows (rdb : RedisClient) (keys : List String) (startTs endTs : Int) :
    List (String × Nat) :=
  keys.filterMap fun key =>
    match rdb.Do_TS_RANGE key startTs endTs with
    | .error _ => none
    | .ok (.arr resultSlice) => some (key, resultSlice.length)
    | .ok _ => some (key, 0)

/-- What one store item contributes to the data points of `GetTimeSeriesData`:
a two-element list gives a point, anything else gives nothing. -/
def decodeItem (sscanf : String → Option Float) : RedisValue → Option DataPoint
  | .arr [p0, p1] =>
    some
      { Timestamp :=
          match p0 with
          | .int n => n
          | _ => 0
        Value :=
          match p1 with
          | .str strVal =>
            match sscanf strVal with
            | some v => v
            | none => 0.0
          | _ => 0.0 }
  | _ => none

/-- The items of a raw reply: its elements when it is a list, none otherwise. -/
def replyItems : RedisValue → List RedisValue
  | .arr resultSlice => resultSlice
  | _ => []

/-- A store item is a pair when it is a list of exactly two elements. -/
def isPair : RedisValue → Bool
  | .arr [_, _] => true
  | _ => false

/-- The timestamp the service reads from a store item. -/
def itemTimestamp : RedisValue → Int
  | .arr [.int n, _] => n
  | _ => 0

/-- A pair whose second component is not a string the `%f` scan accepts. -/
def malformedValue (sscanf : String → Option Float) : RedisValue → Bool
  | .arr [_, .str strVal] => (sscanf strVal).isNone
  | .arr [_, _] => true
  | _ => false

/-! ## Concrete library instances for the examples -/

/-- Two decimal digits, zero padded. -/
def pad2 (n : Nat) : String :=
  if n < 10 then "0" ++ toString n else toString n

/-- Four decimal digits, zero padded. -/
def pad4 (n : Nat) : String :=
  if n < 10 then "000" ++ toString n
  else if n < 100 then "00" ++ toString n
  else if n < 1000 then "0" ++ toString n
  else toString n

/-- The proleptic Gregorian date `(year, month, day)` of a day number counted
from 1970-01-01. -/
def civilFromDays (days : Int) : Int × Nat × Nat :=
  let z := days + 719468
  let era := z / 146097
  let doe := (z - era * 146097).toNat
  let yoe := (doe - doe / 1460 + doe / 36524 - doe / 146096) / 365
  let doy := doe - (365 * yoe + yoe / 4 - yoe / 100)
  let mp := (5 * doy + 2) / 153
  let d := doy - (153 * mp + 2) / 5 + 1
  let m := if mp < 10 then mp + 3 else mp - 9
  let y := (yoe : Int) + era * 400
  (if m ≤ 2 then y + 1 else y, m, d)

/-- The rendering `time.Unix(sec, 0).Format(time.RFC3339)` of a process whose
local zone is UTC, for the years 0000 to 9999. -/
def utcRFC3339 (sec : Int) : String :=
  let days := sec / 86400
  let rem := (sec % 86400).toNat
  let (y, m, d) := civilFromDays days
  pad4 y.toNat ++ "-" ++ pad2 m ++ "-" ++ pad2 d ++ "T"
    ++ pad2 (rem / 3600) ++ ":" ++ pad2 (rem % 3600 / 60) ++ ":" ++ pad2 (rem % 60) ++ "Z"

/-- A `%f` scan that accepts exactly the strings made of decimal digits (one at
least) and stores their value; it fails on every other string.  It agrees with
`fmt.Sscanf` on the strings used in the examples below. -/
def scanDigits (s : String) : Option Float :=
  if s.data ≠ [] ∧ s.data.all Char.isDigit then
    some (OfScientific.ofScientific (s.data.foldl (fun n c => 10 * n + (c.toNat - 48)) 0) false 0)
  else none

/-- A store whose key discovery returns `keys` and whose range query fails on
the keys of `failing` and returns `reply` on every other key. -/
def storeOf (keys failing : List String) (reply : RedisValue) : RedisClient where
  Keys := fun _ => .ok keys
  Do_TS_RANGE := fun key _ _ => if key ∈ failing then .error "ERR TSDB" else .ok reply

/-- A store that cannot be reached at all. -/
def storeDown : RedisClient where
  Keys := fun _ => .error "connection refused"
  Do_TS_RANGE := fun _ _ _ => .error "connection refused"

/-! ## Auxiliary lemmas -/

theorem join_cons (a : String) (l : List String) :
    String.join (a :: l) = a ++ String.join l := by
  apply String.ext
  simp [String.data_join]

theorem join_nil : String.join [] = "" := rfl

theorem pdfContent_eq_rows (formatRFC3339 : Int → String) (rdb : RedisClient)
    (keys : List String) (startTs endTs : Int) :
    pdfContent formatRFC3339 rdb keys startTs endTs
      = pdfHeader formatRFC3339 keys.length startTs endTs
          ++ String.join ((reportRows rdb keys startTs endTs).map fun r => keyBlock r.1 r.2) := by
  unfold pdfContent
  generalize pdfHeader formatRFC3339 keys.length startTs endTs = init
  induction keys generalizing init with
  | nil => simp [reportRows, join_nil]
  | cons k ks ih =>
    rw [List.foldl_cons, ih]
    unfold reportRows
    cases h : rdb.Do_TS_RANGE k startTs endTs with
    | error e => simp [h]
    | ok r => cases r <;> simp [h, join_cons, String.append_assoc]

theorem reportRows_eq_filter (rdb : RedisClient) (keys : List String) (startTs endTs : Int) :
    reportRows rdb keys startTs endTs
      = (keys.filter (rangeOk rdb startTs endTs)).map
          fun k => (k, rangeCount rdb startTs endTs k) := by
  unfold reportRows
  induction keys with
  | nil => rfl
  | cons k ks ih =>
    cases h : rdb.Do_TS_RANGE k startTs endTs with
    | error e => simp [List.filterMap_cons, List.filter_cons, rangeOk, h, ih]
    | ok r => cases r <;> simp [List.filterMap_cons, List.filter_cons, rangeOk, rangeCount, h, ih]

theorem reportRows_keys (rdb : RedisClient) (keys : List String) (startTs endTs : Int) :
    (reportRows rdb keys startTs endTs).map Prod.fst
      = keys.filter (rangeOk rdb startTs endTs) := by
  rw [reportRows_eq_filter, List.map_map]
  exact List.map_id _

theorem GenerateReport_ok (formatRFC3339 : Int → String) (now : Int) (s : server)
    (req : ReportRequest) (keys : List String) (h : s.redisClient.Keys "ts:*" = .ok keys) :
    GenerateReport formatRFC3339 now s req
      = .ok { PdfData :=
                (pdfContent formatRFC3339 s.redisClient keys
                  req.StartTimestamp req.EndTimestamp).toUTF8
              PageCount := 1
              GeneratedAt := formatRFC3339 now } := by
  simp [GenerateReport, generatePDF, h]

theorem GenerateReport_error (formatRFC3339 : Int → String) (now : Int) (s : server)
    (req : ReportRequest) (e : String) (h : s.redisClient.Keys "ts:*" = .error e) :
    GenerateReport formatRFC3339 now s req
      = .error ("failed to get time series keys: " ++ e) := by
  simp [GenerateReport, h]

theorem dataPoints_fold (sscanf : String → Option Float) (items : List RedisValue)
    (init : List DataPoint) :
    items.foldl
        (fun dataPoints item =>
          match item with
          | .arr [p0, p1] =>
            let timestamp : Int :=
              match p0 with
              | .int n => n
              | _ => 0
            let value : Float :=
              match p1 with
              | .str strVal =>
                match sscanf strVal with
                | some v => v
                | none => 0.0
              | _ => 0.0
            dataPoints ++ [{ Timestamp := timestamp, Value := value }]
          | _ => dataPoints)
        init
      = init ++ items.filterMap (decodeItem sscanf) := by
  induction items generalizing init with
  | nil => simp
  | cons item items ih =>
    rw [List.foldl_cons, ih]
    match item with
    | .arr [p0, p1] => simp [decodeItem, List.filterMap_cons]
    | .arr [] => simp [decodeItem, List.filterMap_cons]
    | .arr [_] => simp [decodeItem, List.filterMap_cons]
    | .arr (_ :: _ :: _ :: _) => simp [decodeItem, List.filterMap_cons]
    | .int _ => simp [decodeItem, List.filterMap_cons]
    | .str _ => simp [decodeItem, List.filterMap_cons]
    | .nil => simp [decodeItem, List.filterMap_cons]

theorem GetTimeSeriesData_ok (sscanf : String → Option Float) (s : server)
    (req : TimeSeriesRequest) (r : RedisValue)
    (h : s.redisClient.Do_TS_RANGE req.Key req.StartTimestamp req.EndTimestamp = .ok r) :
    GetTimeSeriesData sscanf s req
      = .ok { Key := req.Key, DataPoints := (replyItems r).filterMap (decodeItem sscanf) } := by
  unfold GetTimeSeriesData
  rw [h]
  cases r with
  | arr xs => simp [replyItems, dataPoints_fold]
  | int _ => simp [replyItems]
  | str _ => simp [replyItems]
  | nil => simp [replyItems]

theorem GetTimeSeriesData_error (sscanf : String → Option Float) (s : server)
    (req : TimeSeriesRequest) (e : String)
    (h : s.redisClient.Do_TS_RANGE req.Key req.StartTimestamp req.EndTimestamp = .error e) :
    GetTimeSeriesData sscanf s req = .error ("failed to query time series: " ++ e) := by
  simp [GetTimeSeriesData, h]

theorem decodeItem_isSome (sscanf : String → Option Float) (item : RedisValue) :
    (decodeItem sscanf item).isSome = isPair item := by
  match item with
  | .arr [p0, p1] => simp [decodeItem, isPair]
  | .arr [] => simp [decodeItem, isPair]
  | .arr [_] => simp [decodeItem, isPair]
  | .arr (_ :: _ :: _ :: _) => simp [decodeItem, isPair]
  | .int _ => simp [decodeItem, isPair]
  | .str _ => simp [decodeItem, isPair]
  | .nil => simp [decodeItem, isPair]

theorem decodeItem_timestamp (sscanf : String → Option Float) (item : RedisValue)
    (p : DataPoint) (h : decodeItem sscanf item = some p) :
    p.Timestamp = itemTimestamp item := by
  match item with
  | .arr [p0, p1] =>
    simp only [decodeItem, Option.some.injEq] at h
    subst h
    cases p0 <;> rfl
  | .arr [] => simp [decodeItem] at h
  | .arr [_] => simp [decodeItem] at h
  | .arr (_ :: _ :: _ :: _) => simp [decodeItem] at h
  | .int _ => simp [decodeItem] at h
  | .str _ => simp [decodeItem] at h
  | .nil => simp [decodeItem] at h

theorem decodeItem_timestamps (sscanf : String → Option Float) (items : List RedisValue) :
    (items.filterMap (decodeItem sscanf)).map (fun p => p.Timestamp)
      = (items.filter isPair).map itemTimestamp := by
  induction items with
  | nil => rfl
  | cons item items ih =>
    have hsome := decodeItem_isSome sscanf item
    cases hd : decodeItem sscanf item with
    | none =>
      rw [hd] at hsome
      have hp : isPair item = false := by simpa using hsome.symm
      simp [List.filterMap_cons, List.filter_cons, hd, hp, ih]
    | some p =>
      rw [hd] at hsome
      have hp : isPair item = true := by simpa using hsome.symm
      simp [List.filterMap_cons, List.filter_cons, hd, hp, ih,
        decodeItem_timestamp sscanf item p hd]

/-! ## Failure of the two procedures -/

/-- C1: `GenerateReport` returns an error exactly when key discovery (the
listing of the keys matching `ts:*`) fails.  When discovery fails the result is
the error wrapping the store's message and no response exists; when discovery
succeeds a response is returned, whatever the store answers to the range
queries (the store is arbitrary here, so any number of them may fail). -/
theorem GenerateReport_fails_iff_discovery_fails (formatRFC3339 : Int → String) (now : Int)
    (s : server) (req : ReportRequest) :
    ((∃ e, GenerateReport formatRFC3339 now s req = .error e)
        ↔ ∃ e, s.redisClient.Keys "ts:*" = .error e)
      ∧ ((∃ resp, GenerateReport formatRFC3339 now s req = .ok resp)
        ↔ ∃ keys, s.redisClient.Keys "ts:*" = .ok keys)
      ∧ (∀ e, s.redisClient.Keys "ts:*" = .error e →
          GenerateReport formatRFC3339 now s req
            = .error ("failed to get time series keys: " ++ e)) := by
  cases h : s.redisClient.Keys "ts:*" with
  | error e => simp [GenerateReport_error formatRFC3339 now s req e h]
  | ok keys => simp [GenerateReport_ok formatRFC3339 now s req keys h]

/-- C9: `GetTimeSeriesData` returns an error exactly when the store's range
query for the requested key fails; when the query succeeds it returns a
response, whatever the shape of the reply, and the response carries the
requested key. -/
theorem GetTimeSeriesData_fails_iff_query_fails (sscanf : String → Option Float) (s : server)
    (req : TimeSeriesRequest) :
    ((∃ e, GetTimeSeriesData sscanf s req = .error e)
        ↔ ∃ e, s.redisClient.Do_TS_RANGE req.Key req.StartTimestamp req.EndTimestamp
                = .error e)
      ∧ (∀ r, s.redisClient.Do_TS_RANGE req.Key req.StartTimestamp req.EndTimestamp = .ok r →
          ∃ resp, GetTimeSeriesData sscanf s req = .ok resp ∧ resp.Key = req.Key) := by
  cases h : s.redisClient.Do_TS_RANGE req.Key req.StartTimestamp req.EndTimestamp with
  | error e => simp [GetTimeSeriesData_error sscanf s req e h]
  | ok r => simp [GetTimeSeriesData_ok sscanf s req r h]

/-! ## The text of the report -/

/-- C10: the bytes produced by `generatePDF` are those of the title and period
header, the line `Total Time Series Keys: n` with `n` the number of all keys
given (failing ones included), and one `Key: k / Data Points: c` block for each
key whose range query succeeded, in the order of the key list, with `c` the
length of the raw reply list or 0 when the reply is not a list.  The number of
blocks is the number of succeeding keys, at most `n`, and it is smaller than
`n` for some store. -/
theorem generatePDF_text (formatRFC3339 : Int → String) (rdb : RedisClient)
    (keys : List String) (startTs endTs : Int) :
    generatePDF formatRFC3339 rdb keys startTs endTs
        = .ok ("Event Analytics Report\n\nPeriod: " ++ formatRFC3339 (Int.tdiv startTs 1000)
                ++ " to " ++ formatRFC3339 (Int.tdiv endTs 1000) ++ "\n\n"
                ++ "Total Time Series Keys: " ++ toString keys.length ++ "\n\n"
                ++ String.join ((keys.filter (rangeOk rdb startTs endTs)).map fun k =>
                    "Key: " ++ k ++ "\nData Points: "
                      ++ toString (rangeCount rdb startTs endTs k) ++ "\n\n")).toUTF8
      ∧ (reportRows rdb keys startTs endTs).length
          = (keys.filter (rangeOk rdb startTs endTs)).length
      ∧ (reportRows rdb keys startTs endTs).length ≤ keys.length
      ∧ (reportRows (storeOf ["ts:a", "ts:b"] ["ts:b"] (.arr [])) ["ts:a", "ts:b"] 0 1000).length
          < ["ts:a", "ts:b"].length := by
  refine ⟨?_, ?_, ?_, by decide⟩
  · unfold generatePDF
    rw [pdfContent_eq_rows, reportRows_eq_filter, List.map_map]
    simp only [pdfHeader, keyBlock, String.append_assoc, Function.comp_def]
  · rw [reportRows_eq_filter, List.length_map]
  · rw [reportRows_eq_filter, List.length_map]
    exact List.length_filter_le _ _

/-! ## Partial failure -/

/-- C2, as the specification states it, fails: with the two keys `ts:a` and
`ts:b` discovered and only the query of `ts:b` failing, the report succeeds but
it has one row, not two, and its text holds nothing for `ts:b`. -/
theorem partial_failure_drops_row :
    rangeOk (storeOf ["ts:a", "ts:b"] ["ts:b"] (.arr [])) 0 1000 "ts:a" = true
      ∧ rangeOk (storeOf ["ts:a", "ts:b"] ["ts:b"] (.arr [])) 0 1000 "ts:b" = false
      ∧ GenerateReport utcRFC3339 0 ⟨storeOf ["ts:a", "ts:b"] ["ts:b"] (.arr [])⟩ ⟨0, 1000⟩
          = .ok { PdfData :=
                    ("Event Analytics Report\n\n"
                      ++ "Period: 1970-01-01T00:00:00Z to 1970-01-01T00:00:01Z\n\n"
                      ++ "Total Time Series Keys: 2\n\n"
                      ++ "Key: ts:a\nData Points: 0\n\n").toUTF8
                  PageCount := 1
                  GeneratedAt := "1970-01-01T00:00:00Z" }
      ∧ reportRows (storeOf ["ts:a", "ts:b"] ["ts:b"] (.arr [])) ["ts:a", "ts:b"] 0 1000
          = [("ts:a", 0)]
      ∧ (reportRows (storeOf ["ts:a", "ts:b"] ["ts:b"] (.arr [])) ["ts:a", "ts:b"] 0 1000).length
          ≠ ["ts:a", "ts:b"].length := by
  refine ⟨by decide, by decide, ?_, by decide, by decide⟩
  rw [GenerateReport_ok utcRFC3339 0 _ _ ["ts:a", "ts:b"] rfl]
  have h1 : pdfContent utcRFC3339 (storeOf ["ts:a", "ts:b"] ["ts:b"] (.arr []))
      ["ts:a", "ts:b"] 0 1000
      = "Event Analytics Report\n\n"
          ++ "Period: 1970-01-01T00:00:00Z to 1970-01-01T00:00:01Z\n\n"
          ++ "Total Time Series Keys: 2\n\n"
          ++ "Key: ts:a\nData Points: 0\n\n" := by decide
  have h2 : utcRFC3339 0 = "1970-01-01T00:00:00Z" := by decide
  simp only [h1, h2]

/-- C2 (amended): when the discovered keys are `ks₁ ++ k :: ks₂`, the query of
`k` fails and the queries of all the other keys succeed, `GenerateReport`
succeeds; the text announces all the keys in its total line and then holds one
block for each key of `ks₁ ++ ks₂`, in that order; so the rows are one fewer
than the keys and none of them is for `k`. -/
theorem GenerateReport_one_failing_key (formatRFC3339 : Int → String) (now : Int)
    (s : server) (req : ReportRequest) (ks₁ ks₂ : List String) (k : String)
    (hkeys : s.redisClient.Keys "ts:*" = .ok (ks₁ ++ k :: ks₂))
    (hfail : rangeOk s.redisClient req.StartTimestamp req.EndTimestamp k = false)
    (hok₁ : ∀ x ∈ ks₁, rangeOk s.redisClient req.StartTimestamp req.EndTimestamp x = true)
    (hok₂ : ∀ x ∈ ks₂, rangeOk s.redisClient req.StartTimestamp req.EndTimestamp x = true) :
    (∃ resp, GenerateReport formatRFC3339 now s req = .ok resp
        ∧ resp.PdfData
            = (pdfHeader formatRFC3339 (ks₁ ++ k :: ks₂).length
                  req.StartTimestamp req.EndTimestamp
                ++ String.join ((ks₁ ++ ks₂).map fun x =>
                    keyBlock x
                      (rangeCount s.redisClient req.StartTimestamp req.EndTimestamp x))).toUTF8)
      ∧ (reportRows s.redisClient (ks₁ ++ k :: ks₂)
            req.StartTimestamp req.EndTimestamp).map Prod.fst = ks₁ ++ ks₂
      ∧ (reportRows s.redisClient (ks₁ ++ k :: ks₂)
            req.StartTimestamp req.EndTimestamp).length + 1 = (ks₁ ++ k :: ks₂).length
      ∧ k ∉ (reportRows s.redisClient (ks₁ ++ k :: ks₂)
            req.StartTimestamp req.EndTimestamp).map Prod.fst := by
  have hfilter : (ks₁ ++ k :: ks₂).filter
      (rangeOk s.redisClient req.StartTimestamp req.EndTimestamp) = ks₁ ++ ks₂ := by
    rw [List.filter_append, List.filter_cons, hfail]
    simp only [Bool.false_eq_true, if_false]
    rw [List.filter_eq_self.mpr hok₁, List.filter_eq_self.mpr hok₂]
  have hkeysRows := reportRows_keys s.redisClient (ks₁ ++ k :: ks₂)
    req.StartTimestamp req.EndTimestamp
  rw [hfilter] at hkeysRows
  refine ⟨⟨_, GenerateReport_ok formatRFC3339 now s req _ hkeys, ?_⟩, hkeysRows, ?_, ?_⟩
  · show String.toUTF8 _ = _
    rw [pdfContent_eq_rows, reportRows_eq_filter, hfilter, List.map_map]
    rfl
  · have := congrArg List.length hkeysRows
    simp only [List.length_map, List.length_append, List.length_cons] at this ⊢
    omega
  · rw [hkeysRows]
    intro hmem
    rcases List.mem_append.mp hmem with h | h
    · rw [hok₁ k h] at hfail; exact Bool.noConfusion hfail
    · rw [hok₂ k h] at hfail; exact Bool.noConfusion hfail

/-- C2 (amended), at the keys `ts:a`, `ts:b`, `ts:c` with only `ts:b` failing. -/
theorem GenerateReport_one_failing_key_witness :
    (∃ resp, GenerateReport utcRFC3339 0
          ⟨storeOf ["ts:a", "ts:b", "ts:c"] ["ts:b"] (.arr [])⟩ ⟨0, 1000⟩ = .ok resp
        ∧ resp.PdfData
            = (pdfHeader utcRFC3339 (["ts:a"] ++ "ts:b" :: ["ts:c"]).length 0 1000
                ++ String.join ((["ts:a"] ++ ["ts:c"]).map fun x =>
                    keyBlock x
                      (rangeCount (storeOf ["ts:a", "ts:b", "ts:c"] ["ts:b"] (.arr []))
                        0 1000 x))).toUTF8)
      ∧ (reportRows (storeOf ["ts:a", "ts:b", "ts:c"] ["ts:b"] (.arr []))
            (["ts:a"] ++ "ts:b" :: ["ts:c"]) 0 1000).map Prod.fst = ["ts:a"] ++ ["ts:c"]
      ∧ (reportRows (storeOf ["ts:a", "ts:b", "ts:c"] ["ts:b"] (.arr []))
            (["ts:a"] ++ "ts:b" :: ["ts:c"]) 0 1000).length + 1
          = (["ts:a"] ++ "ts:b" :: ["ts:c"]).length
      ∧ "ts:b" ∉ (reportRows (storeOf ["ts:a", "ts:b", "ts:c"] ["ts:b"] (.arr []))
            (["ts:a"] ++ "ts:b" :: ["ts:c"]) 0 1000).map Prod.fst :=
  GenerateReport_one_failing_key utcRFC3339 0
    ⟨storeOf ["ts:a", "ts:b", "ts:c"] ["ts:b"] (.arr [])⟩ ⟨0, 1000⟩ ["ts:a"] ["ts:c"] "ts:b"
    rfl (by decide) (by decide) (by decide)

/-! ## Order of the rows -/

/-- C3, as the specification states it, fails: when discovery returns `ts:b`
before `ts:a`, the report lists `ts:b` before `ts:a`, which is not the
lexicographic order, and it differs from the row order obtained when the same
two keys are discovered as `ts:a`, `ts:b`. -/
theorem rows_not_sorted :
    GenerateReport utcRFC3339 0 ⟨storeOf ["ts:b", "ts:a"] [] (.arr [])⟩ ⟨0, 1000⟩
        = .ok { PdfData :=
                  ("Event Analytics Report\n\n"
                    ++ "Period: 1970-01-01T00:00:00Z to 1970-01-01T00:00:01Z\n\n"
                    ++ "Total Time Series Keys: 2\n\n"
                    ++ "Key: ts:b\nData Points: 0\n\n"
                    ++ "Key: ts:a\nData Points: 0\n\n").toUTF8
                PageCount := 1
                GeneratedAt := "1970-01-01T00:00:00Z" }
      ∧ (reportRows (storeOf ["ts:b", "ts:a"] [] (.arr [])) ["ts:b", "ts:a"] 0 1000).map Prod.fst
          = ["ts:b", "ts:a"]
      ∧ ¬ List.Sorted (· < ·)
          ((reportRows (storeOf ["ts:b", "ts:a"] [] (.arr []))
            ["ts:b", "ts:a"] 0 1000).map Prod.fst)
      ∧ (reportRows (storeOf ["ts:a", "ts:b"] [] (.arr [])) ["ts:a", "ts:b"] 0 1000).map Prod.fst
          ≠ (reportRows (storeOf ["ts:b", "ts:a"] [] (.arr []))
              ["ts:b", "ts:a"] 0 1000).map Prod.fst := by
  refine ⟨?_, by decide, ?_, by decide⟩
  · rw [GenerateReport_ok utcRFC3339 0 _ _ ["ts:b", "ts:a"] rfl]
    have h1 : pdfContent utcRFC3339 (storeOf ["ts:b", "ts:a"] [] (.arr []))
        ["ts:b", "ts:a"] 0 1000
        = "Event Analytics Report\n\n"
            ++ "Period: 1970-01-01T00:00:00Z to 1970-01-01T00:00:01Z\n\n"
            ++ "Total Time Series Keys: 2\n\n"
            ++ "Key: ts:b\nData Points: 0\n\n"
            ++ "Key: ts:a\nData Points: 0\n\n" := by decide
    have h2 : utcRFC3339 0 = "1970-01-01T00:00:00Z" := by decide
    simp only [h1, h2]
  · have hrows : (reportRows (storeOf ["ts:b", "ts:a"] [] (.arr []))
        ["ts:b", "ts:a"] 0 1000).map Prod.fst = ["ts:b", "ts:a"] := by decide
    rw [hrows]
    intro hsorted
    have hlt : "ts:b" < "ts:a" := List.rel_of_sorted_cons hsorted "ts:a" (by simp)
    rw [String.lt_iff_toList_lt] at hlt
    revert hlt
    decide
/-- C3 (amended): the rows of the report follow the order in which key
discovery returned the keys; nothing is sorted.  The text is the header
followed by the blocks of the rows; the keys of the rows are the discovered
keys whose query succeeded, in discovery order (a sublist of the discovered
list); they are in strictly lexicographic order whenever discovery returned the
keys in that order; and reversing the discovery order reverses the rows. -/
theorem rows_follow_discovery_order (formatRFC3339 : Int → String) (now : Int)
    (s : server) (req : ReportRequest) (keys : List String)
    (hkeys : s.redisClient.Keys "ts:*" = .ok keys) :
    (∃ resp, GenerateReport formatRFC3339 now s req = .ok resp
        ∧ resp.PdfData
            = (pdfHeader formatRFC3339 keys.length req.StartTimestamp req.EndTimestamp
                ++ String.join
                    ((reportRows s.redisClient keys req.StartTimestamp req.EndTimestamp).map
                      fun r => keyBlock r.1 r.2)).toUTF8)
      ∧ (reportRows s.redisClient keys req.StartTimestamp req.EndTimestamp).map Prod.fst
          = keys.filter (rangeOk s.redisClient req.StartTimestamp req.EndTimestamp)
      ∧ List.Sublist
          ((reportRows s.redisClient keys req.StartTimestamp req.EndTimestamp).map Prod.fst) keys
      ∧ (List.Sorted (· < ·) keys →
          List.Sorted (· < ·)
            ((reportRows s.redisClient keys req.StartTimestamp req.EndTimestamp).map Prod.fst))
      ∧ reportRows s.redisClient keys.reverse req.StartTimestamp req.EndTimestamp
          = (reportRows s.redisClient keys req.StartTimestamp req.EndTimestamp).reverse := by
  refine ⟨⟨_, GenerateReport_ok formatRFC3339 now s req keys hkeys, ?_⟩,
    reportRows_keys _ _ _ _, ?_, ?_, ?_⟩
  · show String.toUTF8 _ = _
    rw [pdfContent_eq_rows]
  · rw [reportRows_keys]
    exact List.filter_sublist keys
  · intro hsorted
    rw [reportRows_keys]
    exact List.Sorted.filter _ hsorted
  · unfold reportRows
    exact List.filterMap_reverse _ keys

/-- C3 (amended), at the discovery order `ts:a`, `ts:b`. -/
theorem rows_follow_discovery_order_witness :
    (∃ resp, GenerateReport utcRFC3339 0
          ⟨storeOf ["ts:a", "ts:b"] [] (.arr [])⟩ ⟨0, 1000⟩ = .ok resp
        ∧ resp.PdfData
            = (pdfHeader utcRFC3339 ["ts:a", "ts:b"].length 0 1000
                ++ String.join
                    ((reportRows (storeOf ["ts:a", "ts:b"] [] (.arr []))
                        ["ts:a", "ts:b"] 0 1000).map
                      fun r => keyBlock r.1 r.2)).toUTF8)
      ∧ (reportRows (storeOf ["ts:a", "ts:b"] [] (.arr [])) ["ts:a", "ts:b"] 0 1000).map Prod.fst
          = ["ts:a", "ts:b"].filter (rangeOk (storeOf ["ts:a", "ts:b"] [] (.arr [])) 0 1000)
      ∧ List.Sublist
          ((reportRows (storeOf ["ts:a", "ts:b"] [] (.arr []))
            ["ts:a", "ts:b"] 0 1000).map Prod.fst) ["ts:a", "ts:b"]
      ∧ (List.Sorted (· < ·) ["ts:a", "ts:b"] →
          List.Sorted (· < ·)
            ((reportRows (storeOf ["ts:a", "ts:b"] [] (.arr []))
              ["ts:a", "ts:b"] 0 1000).map Prod.fst))
      ∧ reportRows (storeOf ["ts:a", "ts:b"] [] (.arr [])) ["ts:a", "ts:b"].reverse 0 1000
          = (reportRows (storeOf ["ts:a", "ts:b"] [] (.arr []))
              ["ts:a", "ts:b"] 0 1000).reverse :=
  rows_follow_discovery_order utcRFC3339 0
    ⟨storeOf ["ts:a", "ts:b"] [] (.arr [])⟩ ⟨0, 1000⟩ ["ts:a", "ts:b"] rfl

/-! ## Page count -/

/-- The keys `ts:0`, ..., `ts:119`. -/
def keys120 : List String :=
  (List.range 120).map fun i => "ts:" ++ toString i

/-- C4, as the specification states it, fails: with 120 keys discovered and
every range query succeeding, the report has 120 rows and the page count
returned is 1, not 3. -/
theorem page_count_120_keys :
    (∃ resp, GenerateReport utcRFC3339 0 ⟨storeOf keys120 [] (.arr [])⟩ ⟨0, 1000⟩ = .ok resp
        ∧ resp.PageCount = 1
        ∧ resp.PageCount ≠ ((120 + 49) / 50 : Nat))
      ∧ keys120.length = 120
      ∧ (reportRows (storeOf keys120 [] (.arr [])) keys120 0 1000).length = 120 := by
  refine ⟨⟨_, GenerateReport_ok utcRFC3339 0 _ _ keys120 rfl, rfl, by decide⟩, by decide, ?_⟩
  rw [reportRows_eq_filter, List.length_map]
  decide

/-- C4 (amended): whenever key discovery succeeds, the page count returned by
`GenerateReport` is the constant 1, whatever the number of rows; it equals the
number `ceil(n/50)` of pages of at most 50 rows exactly for `1 ≤ n ≤ 50`. -/
theorem GenerateReport_page_count_one (formatRFC3339 : Int → String) (now : Int)
    (s : server) (req : ReportRequest) (keys : List String)
    (hkeys : s.redisClient.Keys "ts:*" = .ok keys) :
    ∃ resp, GenerateReport formatRFC3339 now s req = .ok resp
      ∧ resp.PageCount = 1
      ∧ ∀ n : Nat, resp.PageCount = ((n + 49) / 50 : Nat) ↔ 1 ≤ n ∧ n ≤ 50 := by
  refine ⟨_, GenerateReport_ok formatRFC3339 now s req keys hkeys, rfl, ?_⟩
  intro n
  show (1 : Int) = ((n + 49) / 50 : Nat) ↔ _
  constructor
  · intro h
    have h' : (n + 49) / 50 = 1 := by exact_mod_cast h.symm
    omega
  · intro h
    have h' : (n + 49) / 50 = 1 := by omega
    rw [h']
    rfl

/-- C4 (amended), at a store with the three keys `ts:a`, `ts:b`, `ts:c`. -/
theorem GenerateReport_page_count_one_witness :
    ∃ resp, GenerateReport utcRFC3339 0
        ⟨storeOf ["ts:a", "ts:b", "ts:c"] [] (.arr [])⟩ ⟨0, 1000⟩ = .ok resp
      ∧ resp.PageCount = 1
      ∧ ∀ n : Nat, resp.PageCount = ((n + 49) / 50 : Nat) ↔ 1 ≤ n ∧ n ≤ 50 :=
  GenerateReport_page_count_one utcRFC3339 0
    ⟨storeOf ["ts:a", "ts:b", "ts:c"] [] (.arr [])⟩ ⟨0, 1000⟩ ["ts:a", "ts:b", "ts:c"] rfl

/-! ## Raw data points -/

/-- C5, as the specification states it, fails: for the window `[10, 5]`, whose
start is after its end, `GetTimeSeriesData` returns an error when the store's
range query fails, and returns the point the store delivers when the store
delivers one. -/
theorem inverted_window_not_empty :
    (10 : Int) > 5
      ∧ GetTimeSeriesData scanDigits ⟨storeDown⟩ ⟨"ts:a", 10, 5⟩
          = .error "failed to query time series: connection refused"
      ∧ ∃ resp,
          GetTimeSeriesData scanDigits
              ⟨storeOf ["ts:a"] [] (.arr [.arr [.int 7, .str "3"]])⟩ ⟨"ts:a", 10, 5⟩ = .ok resp
            ∧ resp.DataPoints.map (fun p => p.Timestamp) = [7] := by
  refine ⟨by decide, ?_, ?_⟩
  · rw [GetTimeSeriesData_error scanDigits ⟨storeDown⟩ ⟨"ts:a", 10, 5⟩ "connection refused" rfl]
    rfl
  · refine ⟨_, GetTimeSeriesData_ok scanDigits _ ⟨"ts:a", 10, 5⟩ _ rfl, ?_⟩
    simp [replyItems, decodeItem]

/-- C5 (amended): `GetTimeSeriesData` does not inspect the window, so for every
key and every window, those with start after end included, it returns success
with an empty data point sequence exactly when the store's range query succeeds
with a reply holding no two-element item (the empty list in particular), and it
returns the wrapped error when the store's range query fails. -/
theorem GetTimeSeriesData_empty_iff (sscanf : String → Option Float) (s : server)
    (req : TimeSeriesRequest) :
    ((∃ resp, GetTimeSeriesData sscanf s req = .ok resp ∧ resp.DataPoints = [])
        ↔ ∃ r, s.redisClient.Do_TS_RANGE req.Key req.StartTimestamp req.EndTimestamp = .ok r
              ∧ (replyItems r).filter isPair = [])
      ∧ (s.redisClient.Do_TS_RANGE req.Key req.StartTimestamp req.EndTimestamp = .ok (.arr []) →
          GetTimeSeriesData sscanf s req = .ok { Key := req.Key, DataPoints := [] })
      ∧ (∀ e, s.redisClient.Do_TS_RANGE req.Key req.StartTimestamp req.EndTimestamp = .error e →
          GetTimeSeriesData sscanf s req = .error ("failed to query time series: " ++ e)) := by
  refine ⟨?_, ?_, fun e he => GetTimeSeriesData_error sscanf s req e he⟩
  · cases h : s.redisClient.Do_TS_RANGE req.Key req.StartTimestamp req.EndTimestamp with
    | error e => simp [GetTimeSeriesData_error sscanf s req e h]
    | ok r =>
      simp only [GetTimeSeriesData_ok sscanf s req r h, Except.ok.injEq, exists_eq_left',
        List.filterMap_eq_nil_iff, List.filter_eq_nil_iff]
      constructor
      · intro hnone item hmem hpair
        have := decodeItem_isSome sscanf item
        rw [hnone item hmem, hpair] at this
        exact Bool.noConfusion this
      · intro hnone item hmem
        have := decodeItem_isSome sscanf item
        cases hp : isPair item with
        | true => exact absurd hp (hnone item hmem)
        | false => rw [hp] at this; simpa using this
  · intro h
    rw [GetTimeSeriesData_ok sscanf s req _ h]
    rfl

/-- C5 (amended), at the window `[10, 5]`: an empty reply gives an empty
sequence. -/
theorem GetTimeSeriesData_empty_iff_witness :
    (10 : Int) > 5
      ∧ GetTimeSeriesData scanDigits ⟨storeOf ["ts:a"] [] (.arr [])⟩ ⟨"ts:a", 10, 5⟩
          = .ok { Key := "ts:a", DataPoints := [] } :=
  ⟨by decide,
    (GetTimeSeriesData_empty_iff scanDigits ⟨storeOf ["ts:a"] [] (.arr [])⟩
      ⟨"ts:a", 10, 5⟩).2.1 rfl⟩

/-- C6, as the specification states it, fails: the reply holds the item
`[1, "abc"]`, whose value is not a number, then `[2, "7"]`, then a stray string;
the stray string is dropped but the malformed item is kept, as a point with
timestamp 1 and value 0. -/
theorem malformed_value_kept :
    malformedValue scanDigits (.arr [.int 1, .str "abc"]) = true
      ∧ ∃ resp v,
          GetTimeSeriesData scanDigits
              ⟨storeOf ["ts:a"] []
                (.arr [.arr [.int 1, .str "abc"], .arr [.int 2, .str "7"], .str "junk"])⟩
              ⟨"ts:a", 0, 1000⟩ = .ok resp
            ∧ resp.DataPoints = [{ Timestamp := 1, Value := 0.0 }, { Timestamp := 2, Value := v }]
            ∧ resp.DataPoints.length = 2 := by
  refine ⟨by decide, _, OfScientific.ofScientific 7 false 0,
    GetTimeSeriesData_ok scanDigits _ ⟨"ts:a", 0, 1000⟩ _ rfl, ?_, ?_⟩
  · rfl
  · rfl

/-- C6 (amended): when the store's range query succeeds, the fetch succeeds and
the data points are, in the order of the reply, one point for each item that is
a two-element list; the items of any other shape are dropped.  A two-element
item whose value is malformed (not a string, or a string the scan rejects) is
not dropped: it gives a point with the item's timestamp and the value 0.  An
item whose value the scan accepts gives a point with the scanned value. -/
theorem GetTimeSeriesData_keeps_pairs (sscanf : String → Option Float) (s : server)
    (req : TimeSeriesRequest) (r : RedisValue)
    (h : s.redisClient.Do_TS_RANGE req.Key req.StartTimestamp req.EndTimestamp = .ok r) :
    GetTimeSeriesData sscanf s req
        = .ok { Key := req.Key, DataPoints := (replyItems r).filterMap (decodeItem sscanf) }
      ∧ (∀ item, (decodeItem sscanf item).isSome = isPair item)
      ∧ (∀ item, malformedValue sscanf item = true →
          decodeItem sscanf item = some { Timestamp := itemTimestamp item, Value := 0.0 })
      ∧ (∀ p0 strVal v, sscanf strVal = some v →
          decodeItem sscanf (.arr [p0, .str strVal])
            = some { Timestamp := itemTimestamp (.arr [p0, .str strVal]), Value := v })
      ∧ ((replyItems r).filterMap (decodeItem sscanf)).length
          = ((replyItems r).filter isPair).length := by
  refine ⟨GetTimeSeriesData_ok sscanf s req r h, decodeItem_isSome sscanf, ?_, ?_, ?_⟩
  · intro item hmal
    match item with
    | .arr [p0, .str strVal] =>
      have hnone : sscanf strVal = none := by simpa [malformedValue] using hmal
      cases p0 <;> simp [decodeItem, itemTimestamp, hnone]
    | .arr [p0, .int _] => cases p0 <;> simp [decodeItem, itemTimestamp]
    | .arr [p0, .arr _] => cases p0 <;> simp [decodeItem, itemTimestamp]
    | .arr [p0, .nil] => cases p0 <;> simp [decodeItem, itemTimestamp]
    | .arr [] => simp [malformedValue] at hmal
    | .arr [_] => simp [malformedValue] at hmal
    | .arr (_ :: _ :: _ :: _) => simp [malformedValue] at hmal
    | .int _ => simp [malformedValue] at hmal
    | .str _ => simp [malformedValue] at hmal
    | .nil => simp [malformedValue] at hmal
  · intro p0 strVal v hv
    cases p0 <;> simp [decodeItem, itemTimestamp, hv]
  · have := congrArg List.length (decodeItem_timestamps sscanf (replyItems r))
    simpa using this

/-- C6 (amended), at the reply `[[1, "abc"], [2, "7"], "junk"]`. -/
theorem GetTimeSeriesData_keeps_pairs_witness :
    GetTimeSeriesData scanDigits
        ⟨storeOf ["ts:a"] []
          (.arr [.arr [.int 1, .str "abc"], .arr [.int 2, .str "7"], .str "junk"])⟩
        ⟨"ts:a", 0, 1000⟩
      = .ok { Key := "ts:a"
              DataPoints :=
                (replyItems
                  (.arr [.arr [.int 1, .str "abc"], .arr [.int 2, .str "7"],
                    .str "junk"])).filterMap (decodeItem scanDigits) } :=
  (GetTimeSeriesData_keeps_pairs scanDigits
    ⟨storeOf ["ts:a"] []
      (.arr [.arr [.int 1, .str "abc"], .arr [.int 2, .str "7"], .str "junk"])⟩
    ⟨"ts:a", 0, 1000⟩ _ rfl).1

/-- C7, as the specification states it, fails: the store delivers the point of
timestamp 2 before the point of timestamp 1, and `GetTimeSeriesData` returns
them in that order, which is not ascending. -/
theorem data_points_not_sorted :
    ∃ resp,
      GetTimeSeriesData scanDigits
          ⟨storeOf ["ts:a"] [] (.arr [.arr [.int 2, .str "1"], .arr [.int 1, .str "1"]])⟩
          ⟨"ts:a", 0, 1000⟩ = .ok resp
        ∧ resp.DataPoints.map (fun p => p.Timestamp) = [2, 1]
        ∧ ¬ List.Sorted (· ≤ ·) (resp.DataPoints.map fun p => p.Timestamp) := by
  refine ⟨_, GetTimeSeriesData_ok scanDigits _ ⟨"ts:a", 0, 1000⟩ _ rfl, ?_, ?_⟩
  · simp [replyItems, decodeItem]
  · simp [replyItems, decodeItem]

/-- C7 (amended): when the store's range query succeeds, the data points
returned by `GetTimeSeriesData` are in the order in which the store delivered
the items (nothing is sorted): their timestamps are those of the two-element
items of the reply, in the reply's order.  So they are ascending exactly when
the store delivered them ascending. -/
theorem GetTimeSeriesData_delivery_order (sscanf : String → Option Float) (s : server)
    (req : TimeSeriesRequest) (r : RedisValue)
    (h : s.redisClient.Do_TS_RANGE req.Key req.StartTimestamp req.EndTimestamp = .ok r) :
    ∃ resp, GetTimeSeriesData sscanf s req = .ok resp
      ∧ resp.DataPoints.map (fun p => p.Timestamp)
          = ((replyItems r).filter isPair).map itemTimestamp
      ∧ (List.Sorted (· ≤ ·) (resp.DataPoints.map fun p => p.Timestamp)
          ↔ List.Sorted (· ≤ ·) (((replyItems r).filter isPair).map itemTimestamp)) := by
  refine ⟨_, GetTimeSeriesData_ok sscanf s req r h, decodeItem_timestamps sscanf _, ?_⟩
  show List.Sorted _ (List.map _ (List.filterMap _ _)) ↔ _
  rw [decodeItem_timestamps]

/-- C7 (amended), at the reply `[[2, "1"], [1, "1"]]`. -/
theorem GetTimeSeriesData_delivery_order_witness :
    ∃ resp,
      GetTimeSeriesData scanDigits
          ⟨storeOf ["ts:a"] [] (.arr [.arr [.int 2, .str "1"], .arr [.int 1, .str "1"]])⟩
          ⟨"ts:a", 0, 1000⟩ = .ok resp
        ∧ resp.DataPoints.map (fun p => p.Timestamp)
            = ((replyItems (.arr [.arr [.int 2, .str "1"], .arr [.int 1, .str "1"]])).filter
                isPair).map itemTimestamp
        ∧ (List.Sorted (· ≤ ·) (resp.DataPoints.map fun p => p.Timestamp)
            ↔ List.Sorted (· ≤ ·)
                (((replyItems (.arr [.arr [.int 2, .str "1"], .arr [.int 1, .str "1"]])).filter
                  isPair).map itemTimestamp)) :=
  GetTimeSeriesData_delivery_order scanDigits
    ⟨storeOf ["ts:a"] [] (.arr [.arr [.int 2, .str "1"], .arr [.int 1, .str "1"]])⟩
    ⟨"ts:a", 0, 1000⟩ _ rfl

/-! ## Determinism -/

/-- C8: report generation is deterministic.  Two runs with the same key list,
the same window and the same store answer to the range query of every key of
the list produce the same bytes from `generatePDF`; and two runs of
`GenerateReport` whose key discovery returns that list produce the same
document bytes, at whatever times they run and whatever the stores answer for
keys outside the list.  Both runs format times with the same zone. -/
theorem report_deterministic (formatRFC3339 : Int → String) (now₁ now₂ : Int)
    (s₁ s₂ : server) (req : ReportRequest) (keys : List String)
    (h₁ : s₁.redisClient.Keys "ts:*" = .ok keys)
    (h₂ : s₂.redisClient.Keys "ts:*" = .ok keys)
    (hq : ∀ k ∈ keys,
      s₁.redisClient.Do_TS_RANGE k req.StartTimestamp req.EndTimestamp
        = s₂.redisClient.Do_TS_RANGE k req.StartTimestamp req.EndTimestamp) :
    generatePDF formatRFC3339 s₁.redisClient keys req.StartTimestamp req.EndTimestamp
        = generatePDF formatRFC3339 s₂.redisClient keys req.StartTimestamp req.EndTimestamp
      ∧ ∃ resp₁ resp₂,
          GenerateReport formatRFC3339 now₁ s₁ req = .ok resp₁
            ∧ GenerateReport formatRFC3339 now₂ s₂ req = .ok resp₂
            ∧ resp₁.PdfData = resp₂.PdfData := by
  have hrows : reportRows s₁.redisClient keys req.StartTimestamp req.EndTimestamp
      = reportRows s₂.redisClient keys req.StartTimestamp req.EndTimestamp := by
    unfold reportRows
    apply List.filterMap_congr
    intro k hk
    rw [hq k hk]
  have hcontent :
      pdfContent formatRFC3339 s₁.redisClient keys req.StartTimestamp req.EndTimestamp
        = pdfContent formatRFC3339 s₂.redisClient keys req.StartTimestamp req.EndTimestamp := by
    rw [pdfContent_eq_rows, pdfContent_eq_rows, hrows]
  refine ⟨?_, _, _, GenerateReport_ok formatRFC3339 now₁ s₁ req keys h₁,
    GenerateReport_ok formatRFC3339 now₂ s₂ req keys h₂, ?_⟩
  · unfold generatePDF
    rw [hcontent]
  · show String.toUTF8 _ = String.toUTF8 _
    rw [hcontent]

/-- C8, at two stores that answer alike on the discovered keys `ts:a`, `ts:b`
and differ on another key, and at two different times. -/
theorem report_deterministic_witness :
    generatePDF utcRFC3339 (storeOf ["ts:a", "ts:b"] ["ts:b"] (.arr [])) ["ts:a", "ts:b"] 0 1000
        = generatePDF utcRFC3339 (storeOf ["ts:a", "ts:b"] ["ts:b", "ts:z"] (.arr []))
            ["ts:a", "ts:b"] 0 1000
      ∧ ∃ resp₁ resp₂,
          GenerateReport utcRFC3339 1700000000
              ⟨storeOf ["ts:a", "ts:b"] ["ts:b"] (.arr [])⟩ ⟨0, 1000⟩ = .ok resp₁
            ∧ GenerateReport utcRFC3339 1700000060
                ⟨storeOf ["ts:a", "ts:b"] ["ts:b", "ts:z"] (.arr [])⟩ ⟨0, 1000⟩ = .ok resp₂
            ∧ resp₁.PdfData = resp₂.PdfData :=
  report_deterministic utcRFC3339 1700000000 1700000060
    ⟨storeOf ["ts:a", "ts:b"] ["ts:b"] (.arr [])⟩
    ⟨storeOf ["ts:a", "ts:b"] ["ts:b", "ts:z"] (.arr [])⟩ ⟨0, 1000⟩ ["ts:a", "ts:b"] rfl rfl
    (by
      intro k hk
      simp only [List.mem_cons, List.mem_singleton, List.not_mem_nil, or_false] at hk
      rcases hk with rfl | rfl <;> rfl)

end ReportService
